import Mathlib

/-!
Shallow embedding of the `camunda_connector_rs` runtime: the macro-generated
connector adapter (`exec_raw_*`), the registry table build (`build_table`),
and the HTTP dispatcher (`dispatch`) from `src/src/lib.rs`, instantiated with
the `math` connector of `src/examples/math-connector/src/main.rs`.

Request bodies are modelled as `Option Json`: `none` stands for byte strings
that are not valid JSON, `some j` for bytes parsing to the JSON value `j`.
Typed serde decoding (`serde_json::from_slice` into a derived struct) is
modelled as a partial function on that value; u64 fields accept integer JSON
numbers in `[0, 2^64)`.  Rust arithmetic on `u64` is modelled with overflow
checks (debug semantics: out-of-range results panic).
-/

namespace Camunda

/-- JSON values (`serde_json::Value`), with numbers restricted to the
integers that appear in this protocol (no floats are involved in any claim). -/
inductive Json where
  | null : Json
  | bool : Bool → Json
  | num : Int → Json
  | str : String → Json
  | arr : List Json → Json
  | obj : List (String × Json) → Json
deriving Repr

/-- Field lookup in a JSON object (serde_json object maps are key-unique). -/
def jsonLookup : List (String × Json) → String → Option Json
  | [], _ => none
  | (k, v) :: rest, key => if k = key then some v else jsonLookup rest key

/-- Serde: expect a JSON object. -/
def Json.getObj : Json → Option (List (String × Json))
  | .obj fs => some fs
  | _ => none

/-- Serde: expect a JSON string. -/
def Json.getStr : Json → Option String
  | .str s => some s
  | _ => none

/-- Serde: decode a `u64` field — a non-negative integer JSON number at
most `u64::MAX` (the bound is written as the literal `u64::MAX + 1`). -/
def Json.getU64 : Json → Option Nat
  | .num (Int.ofNat n) => if n < 18446744073709551616 then some n else none
  | _ => none

/-- The `OpPeek`/`OpPeekParams` decode of `lib.rs` on a parsed JSON value:
extract `params.operation` as a string, failing on any shape mismatch. -/
def peekJson (j : Json) : Option String := do
  let fs ← j.getObj
  let p ← jsonLookup fs "params"
  let pfs ← p.getObj
  let op ← jsonLookup pfs "operation"
  op.getStr

/-- `serde_json::from_slice::<OpPeek>` on raw bytes: fails when the bytes are
not valid JSON (`none`) or when the value lacks `params.operation`. -/
def peekOperation : Option Json → Option String
  | none => none
  | some j => peekJson j

/-- `MyInput` of the math-connector example: two `u64` fields. -/
structure MyInput where
  a : Nat
  b : Nat
deriving Repr, DecidableEq

/-- Derived `Deserialize` for `MyInput`: an object with `u64` fields `a`, `b`. -/
def decodeMyInput (j : Json) : Option MyInput := do
  let fs ← j.getObj
  let av ← (← jsonLookup fs "a").getU64
  let bv ← (← jsonLookup fs "b").getU64
  pure ⟨av, bv⟩

/-- `MyOutput` of the math-connector example: one `u64` field `result`. -/
structure MyOutput where
  result : Nat
deriving Repr, DecidableEq

/-- Derived `Serialize` for `MyOutput` (`serde_json::to_value`). -/
def encodeMyOutput (v : MyOutput) : Json :=
  .obj [("result", .num (v.result : Int))]

/-- Derived `Deserialize` for `MyOutput` (used to state the round-trip). -/
def decodeMyOutput (j : Json) : Option MyOutput := do
  let fs ← j.getObj
  let r ← (← jsonLookup fs "result").getU64
  pure ⟨r⟩

/-- The macro-generated `Params<Name><Op>` struct: an `operation` string and
a nested `input` field of the handler's input type. -/
structure Params (I : Type) where
  operation : String
  input : I

/-- The macro-generated `Request<Name><Op>` struct: `id: u64` plus `params`. -/
structure Request (I : Type) where
  id : Nat
  params : Params I

/-- Derived `Deserialize` for the generated `Params` struct. -/
def decodeParams (decI : Json → Option I) (j : Json) : Option (Params I) := do
  let fs ← j.getObj
  let op ← (← jsonLookup fs "operation").getStr
  let inp ← decI (← jsonLookup fs "input")
  pure ⟨op, inp⟩

/-- `serde_json::from_slice::<Request...>` on the raw body: the full typed
decode performed inside the generated `exec_raw_*`. -/
def decodeRequest (decI : Json → Option I) : Option Json → Option (Request I)
  | none => none
  | some j => do
    let fs ← j.getObj
    let i ← (← jsonLookup fs "id").getU64
    let ps ← decodeParams decI (← jsonLookup fs "params")
    pure ⟨i, ps⟩

/-- Outcome of invoking a typed Rust handler: `Ok`, `Err`, or a panic
(reachable e.g. through overflow-checked `u64` arithmetic). -/
inductive HandlerResult (O : Type) where
  | ok : O → HandlerResult O
  | err : String → HandlerResult O
  | panicked : HandlerResult O
deriving Repr

/-- Outcome of the type-erased `exec_raw` entry point.  `panicked` records a
panic escaping the boundary (the generated code has no `catch_unwind`). -/
inductive ExecResult where
  | ok : Json → ExecResult
  | err : String → ExecResult
  | panicked : ExecResult
deriving Repr

/-- The static part of the generated error for a failed full decode
(`format!("Bad JSON for `{}`/`{}`: {}", name, operation, e)`); the trailing
serde detail is abstracted away. -/
def badJsonMsg (name op : String) : String :=
  "Bad JSON for `" ++ name ++ "`/`" ++ op ++ "`"

/-- The generated operation-mismatch error
(`format!("Operation mismatch: expected `{}`, got `{}`", ...)`). -/
def mismatchMsg (expected got : String) : String :=
  "Operation mismatch: expected `" ++ expected ++ "`, got `" ++ got ++ "`"

/-- The body of the macro-generated `exec_raw_<name>_<op>` function:
full typed decode, operation consistency check, handler call, and
serialization of the successful output (`serde_json::to_value`, which may
itself fail and is mapped to `Err`).  A handler panic is not caught. -/
def execRawGen (name op : String) (decI : Json → Option I)
    (encO : O → Except String Json)
    (handler : Nat → I → HandlerResult O) (body : Option Json) : ExecResult :=
  match decodeRequest decI body with
  | none => .err (badJsonMsg name op)
  | some req =>
    if req.params.operation ≠ op then
      .err (mismatchMsg op req.params.operation)
    else
      match handler req.id req.params.input with
      | .ok out =>
        match encO out with
        | .ok v => .ok v
        | .error e => .err e
      | .err e => .err e
      | .panicked => .panicked

/-- The example `add` handler: `Ok(MyOutput { result: a + b })`, with Rust
overflow-checked `u64` addition (panics past `2^64 - 1`). -/
def add (_i : Nat) (params : MyInput) : HandlerResult MyOutput :=
  if params.a + params.b < 2 ^ 64 then .ok ⟨params.a + params.b⟩ else .panicked

/-- The example `sub` handler: `Ok(MyOutput { result: a - b })`, with Rust
overflow-checked `u64` subtraction (panics when `a < b`). -/
def sub (_i : Nat) (params : MyInput) : HandlerResult MyOutput :=
  if params.b ≤ params.a then .ok ⟨params.a - params.b⟩ else .panicked

/-- `serde_json::to_value` for `MyOutput`: never fails. -/
def encodeMyOutputE (v : MyOutput) : Except String Json :=
  .ok (encodeMyOutput v)

/-- The generated `exec_raw_math_add`. -/
def exec_raw_math_add : Option Json → ExecResult :=
  execRawGen "math" "add" decodeMyInput encodeMyOutputE add

/-- The generated `exec_raw_math_sub`. -/
def exec_raw_math_sub : Option Json → ExecResult :=
  execRawGen "math" "sub" decodeMyInput encodeMyOutputE sub

/-- Type-erased entry-point signature stored in the registry. -/
abbrev ExecFn := Option Json → ExecResult

/-- `ConnectorRecipe`: one inventory submission `(name, operation, exec_raw)`. -/
structure ConnectorRecipe where
  name : String
  operation : String
  exec_raw : ExecFn

/-- `HashMap::insert` of one recipe under its `(name, operation)` key:
overwrites any entry already present for that key. -/
def insertRecipe (table : String × String → Option ExecFn)
    (r : ConnectorRecipe) : String × String → Option ExecFn :=
  fun k => if k = (r.name, r.operation) then some r.exec_raw else table k

/-- `build_table`: fold the registered recipes into a lookup map;
`HashMap::insert` overwrites, so a later recipe wins on a key collision. -/
def build_table (recipes : List ConnectorRecipe) :
    String × String → Option ExecFn :=
  recipes.foldl insertRecipe (fun _ => none)

/-- The inventory submissions of the math-connector example, in source order. -/
def mathRecipes : List ConnectorRecipe :=
  [⟨"math", "add", exec_raw_math_add⟩, ⟨"math", "sub", exec_raw_math_sub⟩]

/-- The built registry table of the math-connector example. -/
def mathTable : String × String → Option ExecFn :=
  build_table mathRecipes

/-- Terminal HTTP outcome of `dispatch`: a 200 JSON body, an error status
with a plain-text message, or an uncaught panic escaping the handler. -/
inductive DispatchResult where
  | ok : Json → DispatchResult
  | err : Nat → String → DispatchResult
  | panicked : DispatchResult
deriving Repr

/-- HTTP status of a dispatch outcome (`none` when the task panicked). -/
def DispatchResult.status : DispatchResult → Option Nat
  | .ok _ => some 200
  | .err s _ => some s
  | .panicked => none

/-- The `dispatch` axum handler: peek the operation (400 on failure), look up
`(name, operation)` in the table (400 with the operation name on a miss),
run the resolved `exec_raw` (200 on `Ok`, 500 with the message on `Err`). -/
def dispatch (table : String × String → Option ExecFn) (name : String)
    (body : Option Json) : DispatchResult :=
  match peekOperation body with
  | none => .err 400 "Invalid JSON envelope"
  | some op =>
    match table (name, op) with
    | none => .err 400 ("Unsupported operation `" ++ op ++ "`")
    | some ex =>
      match ex body with
      | .ok v => .ok v
      | .err e => .err 500 e
      | .panicked => .panicked

/-- The spec scenario body with the operation-specific fields flattened
directly inside `params` (no `input` nesting). -/
def bodyFlat : Json :=
  .obj [("id", .num 1),
        ("params", .obj [("operation", .str "add"),
                         ("a", .num 3), ("b", .num 4)])]

/-- The same request shaped the way the generated `Request`/`Params` structs
require: the inputs nested under `params.input`. -/
def bodyNested : Json :=
  .obj [("id", .num 1),
        ("params", .obj [("operation", .str "add"),
                         ("input", .obj [("a", .num 3), ("b", .num 4)])])]

/-- A `sub` request with `a < b`, driving the handler into checked-underflow. -/
def bodyUnderflow : Json :=
  .obj [("id", .num 1),
        ("params", .obj [("operation", .str "sub"),
                         ("input", .obj [("a", .num 3), ("b", .num 5)])])]

/-- A well-formed envelope naming the unregistered operation `mul`. -/
def bodyMul : Json :=
  .obj [("id", .num 1), ("params", .obj [("operation", .str "mul")])]

/-- A body that fully decodes for the `add` request shape but embeds the
operation string `mul`. -/
def bodyWrongOp : Json :=
  .obj [("id", .num 1),
        ("params", .obj [("operation", .str "mul"),
                         ("input", .obj [("a", .num 1), ("b", .num 2)])])]

/-- A body that passes the peek (it has `params.operation`) but lacks the
top-level `id`, so the full typed decode fails. -/
def bodyMissingId : Json :=
  .obj [("params", .obj [("operation", .str "add"),
                         ("input", .obj [("a", .num 3), ("b", .num 4)])])]

/-- A handler that always fails with the message `boom`. -/
def boom (_i : Nat) (_p : MyInput) : HandlerResult MyOutput :=
  .err "boom"

/-- The last recipe of `recipes` whose key is `k`, if any. -/
def lastMatching (recipes : List ConnectorRecipe) (k : String × String) :
    Option ExecFn :=
  (recipes.reverse.find? (fun r => (r.name, r.operation) = k)).map
    ConnectorRecipe.exec_raw

/-- Folding `insertRecipe` over a recipe list resolves a key to the last
matching recipe, falling back to the accumulator. -/
theorem foldl_insertRecipe (recipes : List ConnectorRecipe)
    (acc : String × String → Option ExecFn) (k : String × String) :
    recipes.foldl insertRecipe acc k = (lastMatching recipes k).or (acc k) := by
  induction recipes generalizing acc with
  | nil => simp [lastMatching]
  | cons r rest ih =>
    rw [List.foldl_cons, ih]
    unfold lastMatching
    rw [List.reverse_cons, List.find?_append]
    cases hfind :
        rest.reverse.find? (fun x => decide ((x.name, x.operation) = k)) with
    | some e => simp [lastMatching, hfind]
    | none =>
      simp only [lastMatching, hfind, Option.map, Option.none_or]
      simp only [List.find?]
      by_cases h : (r.name, r.operation) = k
      · subst h
        simp [insertRecipe]
      · have h2 : ¬ k = (r.name, r.operation) := fun hh => h hh.symm
        simp [insertRecipe, h, h2]

/-- Claim C1 (counterexample): the spec scenario body, with `a` and `b`
flattened directly inside `params`, does not produce `200` with
`result = 7` — the generated `Request` struct requires the inputs nested
under `params.input`, so the full typed decode fails after routing and the
dispatcher answers 500. -/
theorem c1_counterexample :
    dispatch mathTable "math" (some bodyFlat)
        = DispatchResult.err 500 (badJsonMsg "math" "add") ∧
    dispatch mathTable "math" (some bodyFlat)
        ≠ DispatchResult.ok (Json.obj [("result", Json.num 7)]) :=
  ⟨rfl, fun h => DispatchResult.noConfusion h⟩

/-- Claim C1 (amended): with the operation inputs nested under
`params.input` as the generated structs require, the scenario holds:
dispatching the request yields 200 with JSON body `result = 7`. -/
theorem c1_flat_scenario_needs_nested_input :
    dispatch mathTable "math" (some bodyNested)
        = DispatchResult.ok (Json.obj [("result", Json.num 7)]) := rfl

/-- Claim C2 (counterexample): `exec_raw` does not catch handler panics.
On a fully well-formed `sub` request with `a = 3 < 5 = b`, the
overflow-checked `u64` subtraction panics and the panic escapes the
`exec_raw` boundary (and the dispatcher), instead of being returned as the
`Err` arm of the result. -/
theorem c2_counterexample :
    exec_raw_math_sub (some bodyUnderflow) = ExecResult.panicked ∧
    dispatch mathTable "math" (some bodyUnderflow)
        = DispatchResult.panicked :=
  ⟨rfl, rfl⟩

/-- Claim C2 (amended): every failure of the generated `exec_raw` other
than a handler panic — decode failure, operation mismatch, handler error,
serialization error — is returned as the `Err` arm; `exec_raw` escapes as a
panic exactly when the body fully decodes, the operation matches, and the
wrapped typed handler itself panics. -/
theorem c2_panics_iff_handler_panics (I O : Type) (name op : String)
    (decI : Json → Option I) (encO : O → Except String Json)
    (handler : Nat → I → HandlerResult O) (body : Option Json) :
    execRawGen name op decI encO handler body = ExecResult.panicked ↔
      ∃ r, decodeRequest decI body = some r ∧ r.params.operation = op ∧
        handler r.id r.params.input = HandlerResult.panicked := by
  unfold execRawGen
  cases hdec : decodeRequest decI body with
  | none => simp
  | some req =>
    by_cases hop : req.params.operation = op
    · simp only [hop, ite_not, if_pos rfl, ne_eq, not_true_eq_false, if_false]
      cases hh : handler req.id req.params.input with
      | ok out =>
        cases hout : encO out <;> simp [hout, hh, hop]
      | err e => simp [hh, hop]
      | panicked => simp [hh, hop]
    · simp [hop]

/-- Claim C3: `build_table` followed by a lookup is a deterministic
function of the registration list and implements the keep-last policy:
the entry found under a key is the `exec_raw` of the last-registered
recipe with that key (`HashMap::insert` overwrites on collision). -/
theorem c3_build_keeps_last (recipes : List ConnectorRecipe)
    (k : String × String) :
    build_table recipes k = lastMatching recipes k := by
  unfold build_table
  rw [foldl_insertRecipe]
  exact Option.or_none

/-- Claim C4: any request body that is not valid JSON, or is valid JSON but
lacks the nested `params.operation` string field, is answered 400 with the
fixed message `Invalid JSON envelope` — never 500 — whatever connectors are
registered in the table. -/
theorem c4_malformed_envelope_gives_400
    (table : String × String → Option ExecFn) (name : String)
    (body : Option Json)
    (h : body = none ∨ ∃ j, body = some j ∧ peekJson j = none) :
    dispatch table name body
        = DispatchResult.err 400 "Invalid JSON envelope" ∧
    (dispatch table name body).status = some 400 := by
  have hp : peekOperation body = none := by
    rcases h with h | ⟨j, hj, hpeek⟩
    · rw [h]; rfl
    · rw [hj]; exact hpeek
  have hd : dispatch table name body
      = DispatchResult.err 400 "Invalid JSON envelope" := by
    unfold dispatch
    rw [hp]
  exact ⟨hd, by rw [hd]; rfl⟩

/-- Witness for C4: a body that is valid JSON (a bare string) but has no
`params.operation`, dispatched against the math table. -/
theorem c4_witness :
    ((some (Json.str "zzz") : Option Json) = none ∨
      ∃ j, (some (Json.str "zzz") : Option Json) = some j ∧
        peekJson j = none) ∧
    dispatch mathTable "math" (some (Json.str "zzz"))
        = DispatchResult.err 400 "Invalid JSON envelope" :=
  ⟨Or.inr ⟨Json.str "zzz", rfl, rfl⟩,
   (c4_malformed_envelope_gives_400 mathTable "math" (some (Json.str "zzz"))
      (Or.inr ⟨Json.str "zzz", rfl, rfl⟩)).1⟩

/-- Claim C5: a body that parses and carries a `params.operation` string
with no table entry under `(name, operation)` is answered 400 with a
message that contains the requested operation string. -/
theorem c5_unsupported_operation_gives_400
    (table : String × String → Option ExecFn) (name : String) (j : Json)
    (op : String) (hpeek : peekJson j = some op)
    (hmiss : table (name, op) = none) :
    dispatch table name (some j)
        = DispatchResult.err 400 ("Unsupported operation `" ++ op ++ "`") ∧
    ∃ pre post, "Unsupported operation `" ++ op ++ "`" = pre ++ op ++ post := by
  constructor
  · have hp : peekOperation (some j) = some op := hpeek
    simp only [dispatch, hp, hmiss]
  · exact ⟨"Unsupported operation `", "`", rfl⟩

/-- Witness for C5: the scenario body naming the unregistered operation
`mul` against the math table. -/
theorem c5_witness :
    peekJson bodyMul = some "mul" ∧ mathTable ("math", "mul") = none ∧
    dispatch mathTable "math" (some bodyMul)
        = DispatchResult.err 400 ("Unsupported operation `" ++ "mul" ++ "`") :=
  ⟨rfl, rfl,
   (c5_unsupported_operation_gives_400 mathTable "math" bodyMul "mul"
      rfl rfl).1⟩

/-- Claim C6: when a body fully decodes for the `add` request shape but its
embedded `params.operation` differs from the operation the selected
`exec_raw` was generated for (`add`, i.e. the operation the dispatcher
matched when it picked this entry), `exec_raw_math_add` fails with the
operation-mismatch error, and a dispatcher whose table routed this body to
`exec_raw_math_add` answers 500 with that message. -/
theorem c6_operation_mismatch_gives_500 (body : Option Json)
    (r : Request MyInput)
    (hdec : decodeRequest decodeMyInput body = some r)
    (hne : r.params.operation ≠ "add") :
    exec_raw_math_add body
        = ExecResult.err (mismatchMsg "add" r.params.operation) ∧
    ∀ (table : String × String → Option ExecFn) (name op' : String),
      peekOperation body = some op' →
      table (name, op') = some exec_raw_math_add →
      dispatch table name body
        = DispatchResult.err 500 (mismatchMsg "add" r.params.operation) := by
  have hexec : exec_raw_math_add body
      = ExecResult.err (mismatchMsg "add" r.params.operation) := by
    unfold exec_raw_math_add execRawGen
    rw [hdec]
    simp [hne]
  refine ⟨hexec, ?_⟩
  intro table name op' hpeek htbl
  simp only [dispatch, hpeek, htbl, hexec]

/-- Witness for C6: a fully-decodable body embedding the operation `mul`,
fed to the `exec_raw` generated for `add`. -/
theorem c6_witness :
    exec_raw_math_add (some bodyWrongOp)
        = ExecResult.err (mismatchMsg "add" "mul") :=
  (c6_operation_mismatch_gives_500 (some bodyWrongOp)
      ⟨1, ⟨"mul", ⟨1, 2⟩⟩⟩ rfl (by decide)).1

/-- Claim C7: when the routed body fully decodes with the matching
operation and the typed handler returns `Err m`, `exec_raw` returns
`Err m` (for a string-typed error, `to_string` is the identity), the
dispatcher answers 500 with body `m`, and that body contains `m`. -/
theorem c7_handler_error_gives_500 (I O : Type) (name op : String)
    (decI : Json → Option I) (encO : O → Except String Json)
    (handler : Nat → I → HandlerResult O) (body : Option Json)
    (r : Request I) (m : String)
    (hdec : decodeRequest decI body = some r)
    (hop : r.params.operation = op)
    (herr : handler r.id r.params.input = HandlerResult.err m) :
    execRawGen name op decI encO handler body = ExecResult.err m ∧
    (∀ (table : String × String → Option ExecFn) (nm op' : String),
      peekOperation body = some op' →
      table (nm, op') = some (execRawGen name op decI encO handler) →
      dispatch table nm body = DispatchResult.err 500 m) ∧
    ∃ pre post, m = pre ++ m ++ post := by
  have hexec : execRawGen name op decI encO handler body
      = ExecResult.err m := by
    unfold execRawGen
    rw [hdec]
    simp [hop, herr]
  refine ⟨hexec, ?_, ⟨"", "", by simp⟩⟩
  intro table nm op' hpeek htbl
  simp only [dispatch, hpeek, htbl, hexec]

/-- Witness for C7: a handler that fails with `boom`, registered under
`(math, add)`, dispatched on a well-formed `add` request. -/
theorem c7_witness :
    dispatch
        (build_table [⟨"math", "add",
          execRawGen "math" "add" decodeMyInput encodeMyOutputE boom⟩])
        "math" (some bodyNested)
      = DispatchResult.err 500 "boom" :=
  (c7_handler_error_gives_500 MyInput MyOutput "math" "add" decodeMyInput
      encodeMyOutputE boom (some bodyNested) ⟨1, ⟨"add", ⟨3, 4⟩⟩⟩ "boom"
      rfl rfl rfl).2.1
    (build_table [⟨"math", "add",
      execRawGen "math" "add" decodeMyInput encodeMyOutputE boom⟩])
    "math" "add" rfl rfl

/-- Claim C8: when the routed body fully decodes with the matching
operation and the typed handler returns `Ok v`, the dispatcher answers 200
whose JSON body is the structural serialization of `v`, and deserializing
that body reproduces `v` (round-trip; `v.result` is a `u64`, hence the
bound). -/
theorem c8_ok_gives_200_roundtrip (name op : String)
    (handler : Nat → MyInput → HandlerResult MyOutput) (body : Option Json)
    (r : Request MyInput) (v : MyOutput)
    (hdec : decodeRequest decodeMyInput body = some r)
    (hop : r.params.operation = op)
    (hok : handler r.id r.params.input = HandlerResult.ok v)
    (hbound : v.result < 2 ^ 64) :
    (∀ (table : String × String → Option ExecFn) (nm op' : String),
      peekOperation body = some op' →
      table (nm, op') = some
        (execRawGen name op decodeMyInput encodeMyOutputE handler) →
      dispatch table nm body = DispatchResult.ok (encodeMyOutput v)) ∧
    decodeMyOutput (encodeMyOutput v) = some v := by
  have hexec : execRawGen name op decodeMyInput encodeMyOutputE handler body
      = ExecResult.ok (encodeMyOutput v) := by
    unfold execRawGen
    rw [hdec]
    simp [hop, hok, encodeMyOutputE]
  constructor
  · intro table nm op' hpeek htbl
    simp only [dispatch, hpeek, htbl, hexec]
  · have hb : v.result < 18446744073709551616 := by omega
    simp [decodeMyOutput, encodeMyOutput, Json.getObj, jsonLookup,
      Json.getU64, hb]

/-- Witness for C8: the `add` handler on the well-formed scenario request,
through the math table. -/
theorem c8_witness :
    dispatch mathTable "math" (some bodyNested)
        = DispatchResult.ok (encodeMyOutput ⟨7⟩) ∧
    decodeMyOutput (encodeMyOutput ⟨7⟩) = some ⟨7⟩ :=
  ⟨(c8_ok_gives_200_roundtrip "math" "add" add (some bodyNested)
      ⟨1, ⟨"add", ⟨3, 4⟩⟩⟩ ⟨7⟩ rfl rfl rfl (by decide)).1
      mathTable "math" "add" rfl rfl,
   (c8_ok_gives_200_roundtrip "math" "add" add (some bodyNested)
      ⟨1, ⟨"add", ⟨3, 4⟩⟩⟩ ⟨7⟩ rfl rfl rfl (by decide)).2⟩

/-- Claim C10: a body that passes the peek and routes to the registered
`add` entry but fails the full typed decode (e.g. it lacks the top-level
`id`) is answered 500 with the decode-failure message — never 400. -/
theorem c10_decode_failure_after_routing_gives_500
    (table : String × String → Option ExecFn) (name op' : String)
    (body : Option Json)
    (hpeek : peekOperation body = some op')
    (htbl : table (name, op') = some exec_raw_math_add)
    (hdec : decodeRequest decodeMyInput body = none) :
    dispatch table name body
        = DispatchResult.err 500 (badJsonMsg "math" "add") ∧
    ∀ m, dispatch table name body ≠ DispatchResult.err 400 m := by
  have hexec : exec_raw_math_add body
      = ExecResult.err (badJsonMsg "math" "add") := by
    unfold exec_raw_math_add execRawGen
    rw [hdec]
  have hd : dispatch table name body
      = DispatchResult.err 500 (badJsonMsg "math" "add") := by
    simp only [dispatch, hpeek, htbl, hexec]
  refine ⟨hd, ?_⟩
  intro m h
  rw [hd] at h
  exact absurd h (by simp)

/-- Witness for C10: the nested-input `add` request lacking the top-level
`id`, dispatched against the math table. -/
theorem c10_witness :
    dispatch mathTable "math" (some bodyMissingId)
        = DispatchResult.err 500 (badJsonMsg "math" "add") :=
  (c10_decode_failure_after_routing_gives_500 mathTable "math" "add"
      (some bodyMissingId) rfl rfl rfl).1

end Camunda
